import Mathlib

/-!
Verification of the transcript-extraction and registration-validation core of the
course-registration-validator repository, against its natural-language specification.

The Python sources are shallowly embedded:
* `utils/pdf_extractor.py` (`PDFExtractor.extract_student_info`,
  `PDFExtractor.extract_semesters`, `PDFExtractor.process_pdf`),
* `components/course_analyzer.py` (`CourseValidationHelper.check_prerequisite_satisfaction`,
  `CourseValidationHelper.validate_credit_load`),
* the per-semester credit-limit step of `streamlit_app.py`.

The Python `re` module is modelled by a small backtracking matcher (`matchRE`) with
Python semantics (leftmost search, ordered alternation, greedy/lazy repetition).
Every repetition appearing in the source's patterns has a single-character class as
its body, so repetition is modelled by the dedicated constructor `RE.repCls`, which
makes the matcher total.  Machine strings are Lean `String`s (lists of characters);
fallible Python operations (`int(...)`, `float(...)`) are modelled in `Except`.
-/

namespace CRV

/-! ## Python string primitives -/

/-- The whitespace characters of Python's `str.strip` / `\s` (ASCII part; the inputs
relevant here contain no non-ASCII whitespace). -/
def pyIsSpace (c : Char) : Bool :=
  c = ' ' || c = '\t' || c = '\n' || c = '\r' || c = Char.ofNat 11 || c = Char.ofNat 12

/-- Python `str.strip()` on a list of characters. -/
def pyStripList (cs : List Char) : List Char :=
  ((cs.dropWhile pyIsSpace).reverse.dropWhile pyIsSpace).reverse

/-- Python `str.strip()`. -/
def pyStrip (s : String) : String :=
  (pyStripList s.toList).asString

/-- Python `str.lower()` (ASCII). -/
def pyLower (s : String) : String :=
  (s.toList.map Char.toLower).asString

/-- Python `str.upper()` (ASCII). -/
def pyUpper (s : String) : String :=
  (s.toList.map Char.toUpper).asString

/-- Python substring containment `sub in s`. -/
def strContainsList (sub : List Char) : List Char → Bool
  | [] => sub.isPrefixOf []
  | c :: rest => sub.isPrefixOf (c :: rest) || strContainsList sub rest

/-- Python substring containment `sub in s` on strings. -/
def strContains (s sub : String) : Bool :=
  strContainsList sub.toList s.toList

/-- Helper for `pySplitNl`: split at newlines, `acc` holding the current line
reversed. -/
def pySplitNlAux : List Char → List Char → List String
  | [], acc => [acc.reverse.asString]
  | c :: cs, acc =>
    if c = '\n' then acc.reverse.asString :: pySplitNlAux cs []
    else pySplitNlAux cs (c :: acc)

/-- Python `text.split('\n')` (note `"".split('\n') == [""]`). -/
def pySplitNl (s : String) : List String :=
  pySplitNlAux s.toList []

/-- Python `str.isdigit()` (ASCII digits; all strings tested by the sources are ASCII). -/
def pyIsDigitStr (s : String) : Bool :=
  !s.toList.isEmpty && s.toList.all Char.isDigit

/-- Numeric value of a list of decimal digits. -/
def digitsVal (cs : List Char) : Nat :=
  cs.foldl (fun a c => a * 10 + (c.toNat - 48)) 0

/-- Python `int(s)`: strips whitespace, accepts an optional sign followed by decimal
digits, raises `ValueError` otherwise.  (Underscore separators and non-ASCII digits,
which Python also accepts, never occur in this program's call sites: every call is
guarded by `str.isdigit()`.) -/
def pyInt (s : String) : Except String Int :=
  let t := pyStripList s.toList
  if t.head? = some '+' then
    (if !(t.drop 1).isEmpty && (t.drop 1).all Char.isDigit then
      .ok (digitsVal (t.drop 1))
    else .error ("invalid literal for int: " ++ s))
  else if t.head? = some '-' then
    (if !(t.drop 1).isEmpty && (t.drop 1).all Char.isDigit then
      .ok (-(digitsVal (t.drop 1) : Int))
    else .error ("invalid literal for int: " ++ s))
  else if !t.isEmpty && t.all Char.isDigit then
    .ok (digitsVal t)
  else .error ("invalid literal for int: " ++ s)

/-- Python `float(s)`, restricted to the shape `\d+\.\d+` that the GPA regex groups
guarantee (Python accepts more forms; all are irrelevant at the call sites, which are
moreover wrapped in `try/except`).  The value is modelled exactly, as a rational. -/
def pyFloat (s : String) : Except String Rat :=
  let cs := s.toList
  let intPart := cs.takeWhile Char.isDigit
  let rest := cs.dropWhile Char.isDigit
  match rest with
  | '.' :: fracPart =>
    if !intPart.isEmpty && !fracPart.isEmpty && fracPart.all Char.isDigit then
      .ok ((digitsVal intPart : Rat) + (digitsVal fracPart : Rat) / ((10 : Rat) ^ fracPart.length))
    else .error ("could not convert string to float: " ++ s)
  | _ => .error ("could not convert string to float: " ++ s)

/-- Whether an `Except` computation finished without raising. -/
def exOk {α : Type} : Except String α → Bool
  | .ok _ => true
  | .error _ => false

/-! ## A small regex engine with Python `re` semantics

Only the constructs used by `pdf_extractor.py` are modelled: character classes,
concatenation, ordered alternation, greedy `?`, greedy/lazy counted repetition of a
single-character class, capturing groups, lookahead `(?=...)` and `$`. -/

/-- Regular-expression abstract syntax. -/
inductive RE where
  | eps : RE
  | cls : (Char → Bool) → RE
  | seq : RE → RE → RE
  | alt : RE → RE → RE
  | opt : RE → RE
  | repCls : (Char → Bool) → Nat → Option Nat → Bool → RE
  | grp : Nat → RE → RE
  | la : RE → RE
  | eol : RE

/-- Captures: group index to captured text, most recent first. -/
abbrev Caps := List (Nat × String)

/-- Length of the maximal prefix run of characters satisfying `p`. -/
def runLen (p : Char → Bool) : List Char → Nat
  | [] => 0
  | c :: cs => if p c then runLen p cs + 1 else 0

/-- Try the candidate repetition counts in order, committing to the first for which
the continuation succeeds (this realises backtracking through a repetition). -/
def tryCounts (k : List Char → Caps → Option (Caps × List Char)) (cs : List Char)
    (caps : Caps) : List Nat → Option (Caps × List Char)
  | [] => none
  | n :: ns =>
    match k (cs.drop n) caps with
    | some r => some r
    | none => tryCounts k cs caps ns

/-- Backtracking matcher in continuation-passing style.  `matchRE re cs caps k`
attempts to match `re` at the start of `cs`; on each way the match can succeed it
calls `k` with the remaining input and updated captures, and the first success of
`k` is returned.  Priorities (ordered alternation, greedy/lazy repetition) follow
Python's `re`. -/
def matchRE : RE → List Char → Caps → (List Char → Caps → Option (Caps × List Char)) →
    Option (Caps × List Char)
  | .eps, cs, caps, k => k cs caps
  | .cls p, cs, caps, k =>
    match cs with
    | [] => none
    | c :: rest => if p c then k rest caps else none
  | .seq a b, cs, caps, k => matchRE a cs caps (fun cs1 caps1 => matchRE b cs1 caps1 k)
  | .alt a b, cs, caps, k =>
    (match matchRE a cs caps k with
     | some r => some r
     | none => matchRE b cs caps k)
  | .opt a, cs, caps, k =>
    (match matchRE a cs caps k with
     | some r => some r
     | none => k cs caps)
  | .repCls p lo hi lazyF, cs, caps, k =>
    let run := runLen p cs
    let m := match hi with | some h => min run h | none => run
    if lo ≤ m then
      tryCounts k cs caps
        (if lazyF then (List.range (m - lo + 1)).map (fun i => lo + i)
         else (List.range (m - lo + 1)).map (fun i => m - i))
    else none
  | .grp n a, cs, caps, k =>
    matchRE a cs caps
      (fun cs1 caps1 => k cs1 ((n, (cs.take (cs.length - cs1.length)).asString) :: caps1))
  | .la a, cs, caps, k =>
    (match matchRE a cs caps (fun rest caps2 => some (caps2, rest)) with
     | some _ => k cs caps
     | none => none)
  | .eol, cs, caps, k =>
    if cs = [] ∨ cs = ['\n'] then k cs caps else none

/-- Model of `re.search` on a character list: try each start position from the left; at the
first position where a match exists, return the captures, the suffix at the match's
start position, and the suffix after the match. -/
def reSearchList (re : RE) : List Char → Option (Caps × List Char × List Char)
  | [] =>
    (match matchRE re [] [] (fun rest caps => some (caps, rest)) with
     | some (caps, rest) => some (caps, [], rest)
     | none => none)
  | c :: t =>
    (match matchRE re (c :: t) [] (fun rest caps => some (caps, rest)) with
     | some (caps, rest) => some (caps, c :: t, rest)
     | none => reSearchList re t)

/-- Model of `re.search` on a string. -/
def reSearch (re : RE) (s : String) : Option (Caps × List Char × List Char) :=
  reSearchList re s.toList

/-- Group lookup, `""` for an unset group (all groups of the patterns modelled here
are set whenever the overall pattern matches). -/
def capGet (caps : Caps) (n : Nat) : String :=
  (caps.lookup n).getD ""

/-- Model of `re.finditer`: repeatedly search, resuming after the previous match (or one
character further when the previous match was empty, as Python does).  The fuel is
an upper bound on the number of scan steps; `cs.length + 1` always suffices. -/
def finditerAux (re : RE) : Nat → List Char → List Caps
  | 0, _ => []
  | fuel + 1, cs =>
    match reSearchList re cs with
    | none => []
    | some (caps, startSuf, rest) =>
      if startSuf.length = rest.length then
        -- empty-width match: advance one position past it
        (match rest with
         | [] => [caps]
         | _ :: t => caps :: finditerAux re fuel t)
      else caps :: finditerAux re fuel rest

/-- Model of `re.finditer` on a string. -/
def finditer (re : RE) (s : String) : List Caps :=
  finditerAux re (s.toList.length + 1) s.toList

/-! ### Pattern constructors -/

/-- A single literal character. -/
def chrRE (c : Char) : RE := .cls (fun x => x = c)

/-- A single literal character, case-insensitively (`re.IGNORECASE`). -/
def ichrRE (c : Char) : RE := .cls (fun x => x.toLower = c.toLower)

/-- A literal string. -/
def litRE (s : String) : RE := (s.toList.map chrRE).foldr .seq .eps

/-- A literal string, case-insensitively. -/
def ilitRE (s : String) : RE := (s.toList.map ichrRE).foldr .seq .eps

/-- Model of `\d` (ASCII; the transcripts' course codes and years are ASCII). -/
def dC : Char → Bool := Char.isDigit

/-- Model of `\s`. -/
def sC : Char → Bool := pyIsSpace

/-! ## The patterns of `PDFExtractor` (`utils/pdf_extractor.py`) -/

/-- Model of `r'(First|Second)\s+Semester\s+(\d{4})'`, searched with `re.IGNORECASE`. -/
def semRE1 : RE :=
  .seq (.grp 1 (.alt (ilitRE "First") (ilitRE "Second")))
    (.seq (.repCls sC 1 none false)
      (.seq (ilitRE "Semester")
        (.seq (.repCls sC 1 none false)
          (.grp 2 (.repCls dC 4 (some 4) false)))))

/-- Model of `r'Summer\s+Session\s+(\d{4})'`, searched with `re.IGNORECASE`. -/
def semRE2 : RE :=
  .seq (ilitRE "Summer")
    (.seq (.repCls sC 1 none false)
      (.seq (ilitRE "Session")
        (.seq (.repCls sC 1 none false)
          (.grp 1 (.repCls dC 4 (some 4) false)))))

/-- Model of `r'(First|Second)Semester(\d{4})'`, searched with `re.IGNORECASE`. -/
def semRE3 : RE :=
  .seq (.grp 1 (.alt (ilitRE "First") (ilitRE "Second")))
    (.seq (ilitRE "Semester") (.grp 2 (.repCls dC 4 (some 4) false)))

/-- Model of `r'SummerSession(\d{4})'`, searched with `re.IGNORECASE`. -/
def semRE4 : RE :=
  .seq (ilitRE "SummerSession") (.grp 1 (.repCls dC 4 (some 4) false))

/-- The course-line pattern
`r'(\d{2,8}(?:\s*\d{1,6})?)\s+([A-Za-z][^\d\n]{5,100}?)\s+([A-Z][\+\-]?|W|N|F|P)\s+(\d+)'`
(no flags). -/
def courseRE : RE :=
  .seq (.grp 1 (.seq (.repCls dC 2 (some 8) false)
                 (.opt (.seq (.repCls sC 0 none false) (.repCls dC 1 (some 6) false)))))
    (.seq (.repCls sC 1 none false)
      (.seq (.grp 2 (.seq (.cls Char.isAlpha)
                      (.repCls (fun c => !c.isDigit && c ≠ '\n') 5 (some 100) true)))
        (.seq (.repCls sC 1 none false)
          (.seq (.grp 3 (.alt (.seq (.cls Char.isUpper) (.opt (.cls (fun c => c = '+' || c = '-'))))
                          (.alt (chrRE 'W') (.alt (chrRE 'N') (.alt (chrRE 'F') (chrRE 'P'))))))
            (.seq (.repCls sC 1 none false)
              (.grp 4 (.repCls dC 1 none false)))))))

/-- The GPA pattern
`r'sem\.\s*G\.P\s*\.A\.\s*=\s*(\d+\.\d+).*?cum\.\s*G\.P\s*\.A\.\s*=\s*(\d+\.\d+)'`,
searched with `re.IGNORECASE` (`.` matches any character except a newline). -/
def gpaRE : RE :=
  let float : RE := .seq (.repCls dC 1 none false) (.seq (chrRE '.') (.repCls dC 1 none false))
  let gpaLabel : RE :=
    .seq (ilitRE "G.P") (.seq (.repCls sC 0 none false)
      (.seq (ilitRE ".A.") (.seq (.repCls sC 0 none false)
        (.seq (chrRE '=') (.repCls sC 0 none false)))))
  .seq (ilitRE "sem.")
    (.seq (.repCls sC 0 none false)
      (.seq gpaLabel
        (.seq (.grp 1 float)
          (.seq (.repCls (fun c => c ≠ '\n') 0 none true)
            (.seq (ilitRE "cum.")
              (.seq (.repCls sC 0 none false)
                (.seq gpaLabel (.grp 2 float))))))))

/-- Model of `r'Student No\s+([\d\s]+)'` (no flags). -/
def studentNoRE : RE :=
  .seq (litRE "Student No")
    (.seq (.repCls sC 1 none false)
      (.grp 1 (.repCls (fun c => dC c || sC c) 1 none false)))

/-- Model of `r'Name\s+(.*?)(?=Field of Study|Date of Admission|\n|$)'` (no flags). -/
def nameRE : RE :=
  .seq (litRE "Name")
    (.seq (.repCls sC 1 none false)
      (.seq (.grp 1 (.repCls (fun c => c ≠ '\n') 0 none true))
        (.la (.alt (litRE "Field of Study")
               (.alt (litRE "Date of Admission") (.alt (chrRE '\n') .eol))))))

/-- Model of `r'Field of Study\s+(.*?)(?=Date of Admission|\n|$)'` (no flags). -/
def fieldRE : RE :=
  .seq (litRE "Field of Study")
    (.seq (.repCls sC 1 none false)
      (.seq (.grp 1 (.repCls (fun c => c ≠ '\n') 0 none true))
        (.la (.alt (litRE "Date of Admission") (.alt (chrRE '\n') .eol)))))

/-- Model of `r'Date of Admission\s+(.*?)(?:\n|$)'` (no flags). -/
def dateRE : RE :=
  .seq (litRE "Date of Admission")
    (.seq (.repCls sC 1 none false)
      (.seq (.grp 1 (.repCls (fun c => c ≠ '\n') 0 none true))
        (.alt (chrRE '\n') .eol)))

/-! ## Data model (`utils/pdf_extractor.py` dictionaries) -/

/-- A course dictionary produced by `extract_semesters` (keys `code`, `name`,
`grade`, `credits`). -/
structure Course where
  code : String
  name : String
  grade : String
  credits : Int
deriving DecidableEq, Repr

/-- A semester dictionary produced by `extract_semesters` (keys `semester`,
`semester_type`, `year`, `year_int`, `courses`, `sem_gpa`, `cum_gpa`,
`total_credits`, `semester_order`).  Python `None` for a GPA is `Option.none`;
Python floats are modelled exactly as rationals. -/
structure Semester where
  semester : String
  semester_type : String
  year : String
  year_int : Int
  courses : List Course
  sem_gpa : Option Rat
  cum_gpa : Option Rat
  total_credits : Int
  semester_order : Nat
deriving DecidableEq, Repr

/-- The student-info dictionary produced by `extract_student_info` (keys `id`,
`name`, `field_of_study`, `date_admission`). -/
structure StudentInfo where
  id : String
  name : String
  field_of_study : String
  date_admission : String
deriving DecidableEq, Repr

/-- The mutable per-block state of `extract_semesters`'s inner loop: the `courses`,
`sem_gpa`, `cum_gpa`, `total_credits` entries of `current_semester`, plus the local
`seen_codes` set (modelled as a list). -/
structure BlockState where
  courses : List Course
  sem_gpa : Option Rat
  cum_gpa : Option Rat
  total_credits : Int
  seen : List String
deriving DecidableEq, Repr

/-- The initial per-block state. -/
def initBlock : BlockState :=
  { courses := [], sem_gpa := none, cum_gpa := none, total_credits := 0, seen := [] }

/-! ## `PDFExtractor.extract_semesters` -/

/-- Python `s.replace(' ', '')` (removes space characters only). -/
def dropSpaces (s : String) : String :=
  (s.toList.filter (fun c => c ≠ ' ')).asString

/-- Model of `re.sub(r'\s+', ' ', s)`: each maximal whitespace run becomes a single space.
The Boolean records whether the previous character was part of a whitespace run. -/
def collapseWsAux : Bool → List Char → List Char
  | _, [] => []
  | inRun, c :: cs =>
    if pyIsSpace c then
      (if inRun then collapseWsAux true cs else ' ' :: collapseWsAux true cs)
    else c :: collapseWsAux false cs

/-- Model of `re.sub(r'\s+', ' ', s)` on a character list. -/
def collapseWsList (cs : List Char) : List Char :=
  collapseWsAux false cs

/-- Model of `re.sub(r'\s+', ' ', s)` on strings. -/
def collapseWs (s : String) : String :=
  (collapseWsList s.toList).asString

/-- Index of the first prefix-occurrence of `sub` in a character list. -/
def findPrefixIdx (sub : List Char) : List Char → Option Nat
  | [] => if sub.isPrefixOf ([] : List Char) then some 0 else none
  | c :: t =>
    if sub.isPrefixOf (c :: t) then some 0
    else (findPrefixIdx sub t).map (fun i => i + 1)

/-- Model of `re.sub(r'SUB.*$', '', s, flags=re.IGNORECASE)` for a newline-free `s` (the
course names this is applied to come from a character class excluding newlines):
everything from the first case-insensitive occurrence of `SUB` onwards is removed. -/
def cutAtCI (s sub : String) : String :=
  match findPrefixIdx (sub.toList.map Char.toLower) (s.toList.map Char.toLower) with
  | some i => (s.toList.take i).asString
  | none => s

/-- The `valid_grades` list of `extract_semesters`. -/
def valid_grades : List String :=
  ["A", "B+", "B", "C+", "C", "D+", "D", "F", "W", "N", "P", "I", "S", "U"]

/-- Search the GPA pattern in a line, returning the two float groups. -/
def gpaSearch (line : String) : Option (String × String) :=
  (reSearch gpaRE line).map (fun r => (capGet r.1 1, capGet r.1 2))

/-- Model of `re.finditer(course_pattern, line)`, with the four groups of each match. -/
def courseFinditer (line : String) : List (String × String × String × String) :=
  (finditer courseRE line).map (fun caps => (capGet caps 1, capGet caps 2, capGet caps 3, capGet caps 4))

/-- The body of `extract_semesters`'s per-course-match `try:` block.  Every
`continue`-style rejection returns the state unchanged; the one fallible Python
operation, `int(credits_str)`, is guarded by `str.isdigit()`. -/
def courseBody (st : BlockState) (m : String × String × String × String) :
    Except String BlockState :=
  let course_code_raw := pyStrip m.1
  let course_name0 := pyStrip m.2.1
  let grade := pyStrip m.2.2.1
  let credits_str := pyStrip m.2.2.2
  let course_code := dropSpaces course_code_raw
  if ¬(pyIsDigitStr course_code = true ∧ course_code.length = 8) then .ok st
  else if course_code ∈ st.seen then .ok st
  else
    let name1 := collapseWs course_name0
    let name2 := cutAtCI name1 "Course Code"
    let name3 := cutAtCI name2 "Grade"
    let name4 := cutAtCI name3 "Credit"
    let course_name := pyStrip name4
    if course_name.length < 3 then .ok st
    else if grade ∉ valid_grades then .ok st
    else
      (if pyIsDigitStr credits_str then pyInt credits_str else Except.ok 0).bind
        (fun credits =>
          if credits ≤ 0 ∨ credits > 6 then .ok st
          else
            let course : Course :=
              { code := course_code, name := course_name, grade := grade, credits := credits }
            let newTotal :=
              if grade ∉ (["W", "N", ""] : List String) then st.total_credits + credits
              else st.total_credits
            .ok { st with
                  courses := st.courses ++ [course],
                  seen := course_code :: st.seen,
                  total_credits := newTotal })

/-- One course match of `extract_semesters`'s inner loop; the surrounding
`except (IndexError, ValueError): continue` turns any raised error into a skip. -/
def processCourseMatch (st : BlockState) (m : String × String × String × String) :
    BlockState :=
  match courseBody st m with
  | .ok st1 => st1
  | .error _ => st

/-- The GPA-line branch: `float(group(1))` is assigned before `float(group(2))` is
attempted, and the surrounding `try/except` swallows a failure of either, so a
failure of the second conversion leaves the first assignment in place. -/
def applyGpa (st : BlockState) (g1 g2 : String) : BlockState :=
  match pyFloat g1 with
  | .error _ => st
  | .ok v1 =>
    let st1 := { st with sem_gpa := some v1 }
    match pyFloat g2 with
    | .error _ => st1
    | .ok v2 => { st1 with cum_gpa := some v2 }

/-- One iteration of `extract_semesters`'s per-line loop: strip, skip empty and
`http`/`.php` lines, try the GPA pattern (`continue` on a match), otherwise feed
every course match to the course handler. -/
def processLine (st : BlockState) (rawLine : String) : BlockState :=
  let line := pyStrip rawLine
  if line = "" || strContains (pyLower line) "http" || strContains (pyLower line) ".php" then st
  else
    match gpaSearch line with
    | some g => applyGpa st g.1 g.2
    | none => (courseFinditer line).foldl processCourseMatch st

/-- Try the four semester-header patterns in order on a stripped line, returning the
matched pattern's groups (`match.groups()`). -/
def findMarkerGroups (lineClean : String) : Option (List String) :=
  match reSearch semRE1 lineClean with
  | some r => some [capGet r.1 1, capGet r.1 2]
  | none =>
    match reSearch semRE2 lineClean with
    | some r => some [capGet r.1 1]
    | none =>
      match reSearch semRE3 lineClean with
      | some r => some [capGet r.1 1, capGet r.1 2]
      | none =>
        match reSearch semRE4 lineClean with
        | some r => some [capGet r.1 1]
        | none => none

/-- A semester marker: line number, stripped line, and the match's groups. -/
abbrev Marker := Nat × String × List String

/-- One semester block of `extract_semesters`: parse the header information (the
`int(year)` call is the one conversion not wrapped in a `try`), fold the block's
lines, and keep the semester only if it has at least one course. -/
def processBlock (lines : List String) (p : Marker × Nat) : Except String (Option Semester) :=
  let semLineNum := p.1.1
  let semLine := p.1.2.1
  let groups := p.1.2.2
  let endLine := p.2
  let semester_type := if strContains semLine "Summer" then "Summer" else groups.getD 0 ""
  let year :=
    if strContains semLine "Summer" then
      (if groups.length = 1 then groups.getD 0 "" else groups.getD 1 "")
    else
      (if groups.length > 1 then groups.getD 1 "" else groups.getD 0 "")
  (if pyIsDigitStr year then pyInt year else Except.ok 0).bind
    (fun year_int =>
      let label :=
        if semester_type ≠ "Summer" then semester_type ++ " Semester " ++ year
        else "Summer Session " ++ year
      let order : Nat :=
        if semester_type = "Summer" then 0 else if semester_type = "First" then 1 else 2
      let body := (lines.drop (semLineNum + 1)).take (endLine - (semLineNum + 1))
      let st := body.foldl processLine initBlock
      if st.courses = [] then .ok none
      else .ok (some
        { semester := label, semester_type := semester_type, year := year,
          year_int := year_int, courses := st.courses, sem_gpa := st.sem_gpa,
          cum_gpa := st.cum_gpa, total_credits := st.total_credits,
          semester_order := order }))

/-- Model of `semesters.append(current_semester)` guarded by `if current_semester["courses"]`. -/
def accBlock (lines : List String) (acc : List Semester) (p : Marker × Nat) :
    Except String (List Semester) :=
  match processBlock lines p with
  | .error e => .error e
  | .ok none => .ok acc
  | .ok (some s) => .ok (acc ++ [s])

/-- The semester markers of a text: for every nonempty stripped line, the first
semester-header pattern that matches (patterns tried in order). -/
def semesterMarkers (lines : List String) : List Marker :=
  lines.enum.filterMap (fun nl =>
    let lc := pyStrip nl.2
    if lc = "" then none
    else (findMarkerGroups lc).map (fun gs => (nl.1, lc, gs)))

/-- Model of `PDFExtractor.extract_semesters`: split into lines, locate semester headers,
process each block up to the next header (or end of text). -/
def extract_semesters (text : String) : Except String (List Semester) :=
  let lines := pySplitNl text
  let markers := semesterMarkers lines
  let pairs := markers.zip ((markers.map (fun m => m.1)).drop 1 ++ [lines.length])
  pairs.foldlM (accBlock lines) []

/-! ## `PDFExtractor.extract_student_info` and `PDFExtractor.process_pdf` -/

/-- The `Student No` search of `extract_student_info`. -/
def studentNoSearch (text : String) : Option Caps :=
  (reSearch studentNoRE text).map (fun r => r.1)

/-- The digit filtering `''.join(c for c in id_match.group(1) if c.isdigit())`. -/
def idDigits (caps : Caps) : List Char :=
  (capGet caps 1).toList.filter Char.isDigit

/-- Model of `PDFExtractor.extract_student_info`: four independent pattern searches, each
defaulting to `"Unknown"` when its pattern fails to match. -/
def extract_student_info (text : String) : StudentInfo :=
  let student_id :=
    match studentNoSearch text with
    | none => "Unknown"
    | some caps =>
      let digits := idDigits caps
      if digits.length ≥ 10 then (digits.take 10).asString
      else if digits.length > 0 then digits.asString
      else "Unknown"
  let student_name :=
    match reSearch nameRE text with
    | none => "Unknown"
    | some r => pyStrip (capGet r.1 1)
  let field_of_study :=
    match reSearch fieldRE text with
    | none => "Unknown"
    | some r => pyStrip (capGet r.1 1)
  let date_admission :=
    match reSearch dateRE text with
    | none => "Unknown"
    | some r => pyStrip (capGet r.1 1)
  { id := student_id, name := student_name, field_of_study := field_of_study,
    date_admission := date_admission }

/-- Model of `PDFExtractor.process_pdf` on pre-extracted text (the `text is not None` path;
the PDF-file path performs I/O and is outside the embedded core).  The Python
`return {}, [], ""` for falsy text is modelled with `none` for the empty dict. -/
def process_pdf (text : String) : Except String (Option StudentInfo × List Semester × String) :=
  if text = "" then .ok (none, [], "")
  else
    (extract_semesters text).bind (fun sems =>
      .ok (some (extract_student_info text), sems, text))

/-! ## `CourseValidationHelper` (`components/course_analyzer.py`) -/

/-- A catalog entry as consumed by `check_prerequisite_satisfaction`: the field
models `course_info.get("prerequisites", [])` (a catalog dictionary without the
key behaves as an empty prerequisite list). -/
structure CourseInfo where
  prerequisites : List String
deriving DecidableEq, Repr

/-- The part of `CourseAnalyzer` used by validation: the `all_courses` dictionary
(`code → course info`), modelled as an association list with unique keys. -/
structure CourseAnalyzer where
  all_courses : List (String × CourseInfo)
deriving DecidableEq, Repr

/-- Model of `CourseAnalyzer.get_course_info`: `self.course_categories["all_courses"].get(course_code.upper())`. -/
def CourseAnalyzer.get_course_info (a : CourseAnalyzer) (course_code : String) :
    Option CourseInfo :=
  a.all_courses.lookup (pyUpper course_code)

/-- Model of `CourseValidationHelper.check_prerequisite_satisfaction`: fail-open when the
course is not in the catalog; otherwise collect every prerequisite missing from
`passed_courses` and report the full list. -/
def check_prerequisite_satisfaction (course_code : String) (passed_courses : List String)
    (course_analyzer : CourseAnalyzer) : Bool × String :=
  match course_analyzer.get_course_info course_code with
  | none => (true, "Course not found in database")
  | some course_info =>
    if course_info.prerequisites = [] then (true, "No prerequisites required")
    else
      let missing_prerequisites :=
        course_info.prerequisites.filter (fun prereq => prereq ∉ passed_courses)
      if missing_prerequisites ≠ [] then
        (false, "Missing prerequisites: " ++ String.intercalate ", " missing_prerequisites)
      else (true, "All prerequisites satisfied")

/-- Model of `CourseValidationHelper.validate_credit_load`: ceiling 9 when the semester type
lowercases to `"summer"`, 22 otherwise; `is_ok = false` exactly on exceeding it. -/
def validate_credit_load (semester_credits : Int) (semester_type : String) : Bool × String :=
  let max_credits : Int := if pyLower semester_type = "summer" then 9 else 22
  if semester_credits > max_credits then
    (false, "Exceeds maximum " ++ toString max_credits ++ " credits for " ++
      semester_type ++ " semester")
  else (true, "Credit load valid: " ++ toString semester_credits ++ " credits")

/-! ## The per-semester credit-limit step of `streamlit_app.py` -/

/-- A validation-result dictionary as appended by `streamlit_app.py`'s main loop
(keys `semester`, `semester_index`, `course_code`, `course_name`, `grade`,
`is_valid`, `reason`, `type`). -/
structure VResult where
  semester : String
  semester_index : Nat
  course_code : String
  course_name : String
  grade : String
  is_valid : Bool
  reason : String
  type : String
deriving DecidableEq, Repr

/-- Modelled from the spec: `CourseRegistrationValidator.validate_credit_limit` of
`validator.py`, which `streamlit_app.py` imports but which is not among the
repository's source files.  Spec §4.3/§6: the semester's total credits are compared
against a ceiling depending on the semester kind — 9 for Summer, 22 otherwise —
and `is_ok = false` exactly when the ceiling is exceeded. -/
def validate_credit_limit (semester : Semester) : Bool × String :=
  let ceiling : Int := if semester.semester_type = "Summer" then 9 else 22
  if semester.total_credits > ceiling then
    (false, "Exceeds maximum " ++ toString ceiling ++ " credits")
  else (true, "Credit load valid")

/-- The credit-limit check of `streamlit_app.py`'s per-semester loop: when
`validate_credit_limit` reports `not credit_valid`, a synthetic result is appended
whose `is_valid` is the literal `True` (credit limits are warnings, not errors). -/
def creditLimitCheck (i : Nat) (semester : Semester) : List VResult :=
  if (validate_credit_limit semester).1 = false then
    [{ semester := semester.semester, semester_index := i, course_code := "CREDIT_LIMIT",
       course_name := "Credit Limit Check", grade := "N/A", is_valid := true,
       reason := (validate_credit_limit semester).2, type := "credit_limit" }]
  else []

/-! ## Invariants of the extraction loop (shared lemmas) -/

/-- Well-formedness of an extracted course record: 8-digit code, vocabulary grade,
credits in (0, 6]. -/
def goodCourse (c : Course) : Prop :=
  c.code.length = 8 ∧ c.code.toList.all Char.isDigit = true ∧
    c.grade ∈ valid_grades ∧ 0 < c.credits ∧ c.credits ≤ 6

/-- Invariant of the per-block state: all recorded courses are well formed, their
codes are pairwise distinct, and every recorded code is in the seen set. -/
def BlockInv (st : BlockState) : Prop :=
  (∀ c ∈ st.courses, goodCourse c) ∧
    (st.courses.map Course.code).Nodup ∧
    (∀ c ∈ st.courses, c.code ∈ st.seen)

theorem initBlock_inv : BlockInv initBlock := by
  refine ⟨?_, ?_, ?_⟩ <;> simp [initBlock]

/-- A successful `courseBody` either leaves the state unchanged or appends exactly
one well-formed, unseen course and marks its code seen. -/
theorem courseBody_ok (st : BlockState) (m : String × String × String × String)
    (st' : BlockState) (h : courseBody st m = .ok st') :
    st' = st ∨
      ∃ c : Course,
        st'.courses = st.courses ++ [c] ∧ st'.seen = c.code :: st.seen ∧
        goodCourse c ∧ c.code ∉ st.seen := by
  simp only [courseBody] at h
  split at h
  · injection h with h2
    exact Or.inl h2.symm
  · split at h
    · injection h with h2
      exact Or.inl h2.symm
    · split at h
      · injection h with h2
        exact Or.inl h2.symm
      · split at h
        · injection h with h2
          exact Or.inl h2.symm
        · rename_i hcode hseen hname hgrade
          cases hI : (if pyIsDigitStr (pyStrip m.2.2.2) then pyInt (pyStrip m.2.2.2)
              else Except.ok 0) with
          | error e =>
            rw [hI] at h
            simp [Except.bind] at h
          | ok v =>
            rw [hI] at h
            simp only [Except.bind] at h
            split at h
            · injection h with h2
              exact Or.inl h2.symm
            · rename_i hv
              injection h with h2
              push_neg at hcode
              push_neg at hv
              rw [← h2]
              refine Or.inr ⟨_, rfl, rfl, ?_, hseen⟩
              refine ⟨hcode.2, ?_, not_not.mp hgrade, hv.1, hv.2⟩
              have hd := hcode.1
              unfold pyIsDigitStr at hd
              exact (Bool.and_eq_true _ _ |>.mp hd).2

/-- Lemma: `processCourseMatch` preserves the block invariant. -/
theorem processCourseMatch_inv (st : BlockState) (m : String × String × String × String)
    (h : BlockInv st) : BlockInv (processCourseMatch st m) := by
  unfold processCourseMatch
  cases hb : courseBody st m with
  | error e => exact h
  | ok st' =>
    rcases courseBody_ok st m st' hb with heq | ⟨c, hc1, hc2, hc3, hc4⟩
    · rw [heq]
      exact h
    · obtain ⟨hg, hn, hs⟩ := h
      refine ⟨?_, ?_, ?_⟩
      · intro d hd
        rw [hc1] at hd
        rcases List.mem_append.mp hd with hd | hd
        · exact hg d hd
        · rw [List.mem_singleton.mp hd]
          exact hc3
      · rw [hc1, List.map_append]
        rw [List.nodup_append]
        refine ⟨hn, by simp, ?_⟩
        intro x hx hx1
        simp only [List.map_cons, List.map_nil, List.mem_singleton] at hx1
        rcases List.mem_map.mp hx with ⟨d, hd, hdx⟩
        exact hc4 (hx1 ▸ hdx ▸ hs d hd)
      · intro d hd
        rw [hc1] at hd
        rw [hc2]
        rcases List.mem_append.mp hd with hd | hd
        · exact List.mem_cons_of_mem _ (hs d hd)
        · rw [List.mem_singleton.mp hd]
          exact List.mem_cons_self _ _

/-- Lemma: `applyGpa` only touches the GPA fields. -/
theorem applyGpa_courses_seen (st : BlockState) (g1 g2 : String) :
    (applyGpa st g1 g2).courses = st.courses ∧ (applyGpa st g1 g2).seen = st.seen := by
  unfold applyGpa
  cases pyFloat g1 with
  | error e => exact ⟨rfl, rfl⟩
  | ok v1 =>
    cases pyFloat g2 with
    | error e => exact ⟨rfl, rfl⟩
    | ok v2 => exact ⟨rfl, rfl⟩

/-- A fold of `processCourseMatch` preserves the block invariant. -/
theorem foldl_processCourseMatch_inv
    (ms : List (String × String × String × String)) :
    ∀ st : BlockState, BlockInv st → BlockInv (ms.foldl processCourseMatch st) := by
  induction ms with
  | nil => intro st h; exact h
  | cons m ms ih =>
    intro st h
    exact ih _ (processCourseMatch_inv st m h)

/-- Lemma: `processLine` preserves the block invariant. -/
theorem processLine_inv (st : BlockState) (line : String) (h : BlockInv st) :
    BlockInv (processLine st line) := by
  simp only [processLine]
  split
  · exact h
  · split
    · rename_i g hg
      obtain ⟨he1, he2⟩ := applyGpa_courses_seen st g.1 g.2
      obtain ⟨h1, h2, h3⟩ := h
      exact ⟨fun c hc => h1 c (he1 ▸ hc), by rw [he1]; exact h2,
        fun c hc => he2 ▸ h3 c (he1 ▸ hc)⟩
    · exact foldl_processCourseMatch_inv _ st h

/-- A fold of `processLine` preserves the block invariant. -/
theorem foldl_processLine_inv (lines : List String) :
    ∀ st : BlockState, BlockInv st → BlockInv (lines.foldl processLine st) := by
  induction lines with
  | nil => intro st h; exact h
  | cons l ls ih =>
    intro st h
    exact ih _ (processLine_inv st l h)

/-- A semester that `processBlock` emits carries the fold's final state: its
courses are nonempty, well formed, and have pairwise distinct codes. -/
theorem processBlock_ok_some (lines : List String) (p : Marker × Nat) (s : Semester)
    (h : processBlock lines p = .ok (some s)) :
    s.courses ≠ [] ∧ (∀ c ∈ s.courses, goodCourse c) ∧
      (s.courses.map Course.code).Nodup := by
  simp only [processBlock] at h
  cases hI : (if pyIsDigitStr
      (if strContains p.1.2.1 "Summer" then
        (if p.1.2.2.length = 1 then p.1.2.2.getD 0 "" else p.1.2.2.getD 1 "")
      else (if p.1.2.2.length > 1 then p.1.2.2.getD 1 "" else p.1.2.2.getD 0 "")) then
      pyInt (if strContains p.1.2.1 "Summer" then
        (if p.1.2.2.length = 1 then p.1.2.2.getD 0 "" else p.1.2.2.getD 1 "")
      else (if p.1.2.2.length > 1 then p.1.2.2.getD 1 "" else p.1.2.2.getD 0 ""))
      else Except.ok 0) with
  | error e =>
    rw [hI] at h
    simp [Except.bind] at h
  | ok v =>
    rw [hI] at h
    simp only [Except.bind] at h
    split at h
    · injection h with h2
      cases h2
    · rename_i hne
      injection h with h2
      injection h2 with h3
      have hinv := foldl_processLine_inv
        ((lines.drop (p.1.1 + 1)).take (p.2 - (p.1.1 + 1))) initBlock initBlock_inv
      rw [← h3]
      exact ⟨hne, hinv.1, hinv.2.1⟩

/-- Membership in a successful `accBlock` fold comes from the accumulator or from
a block that emitted the semester. -/
theorem foldlM_accBlock_mem (lines : List String) :
    ∀ (ps : List (Marker × Nat)) (acc out : List Semester),
      ps.foldlM (accBlock lines) acc = .ok out →
      ∀ s ∈ out, s ∈ acc ∨ ∃ p, processBlock lines p = .ok (some s) := by
  intro ps
  induction ps with
  | nil =>
    intro acc out h s hs
    injection h with h2
    exact Or.inl (h2 ▸ hs)
  | cons p ps ih =>
    intro acc out h s hs
    simp only [List.foldlM_cons] at h
    cases hb : accBlock lines acc p with
    | error e =>
      rw [hb] at h
      injection h
    | ok acc' =>
      rw [hb] at h
      have h' : ps.foldlM (accBlock lines) acc' = .ok out := h
      have hmem := ih acc' out h' s hs
      unfold accBlock at hb
      cases hpb : processBlock lines p with
      | error e =>
        rw [hpb] at hb
        cases hb
      | ok so =>
        cases so with
        | none =>
          rw [hpb] at hb
          injection hb with hb2
          rcases hmem with hmem | hmem
          · exact Or.inl (hb2 ▸ hmem)
          · exact Or.inr hmem
        | some s' =>
          rw [hpb] at hb
          injection hb with hb2
          rcases hmem with hmem | hmem
          · rw [← hb2] at hmem
            rcases List.mem_append.mp hmem with hmem | hmem
            · exact Or.inl hmem
            · exact Or.inr ⟨p, List.mem_singleton.mp hmem ▸ hpb⟩
          · exact Or.inr hmem

/-- Every semester a successful `extract_semesters` returns was emitted by some
block. -/
theorem extract_semesters_mem (text : String) (sems : List Semester) (s : Semester)
    (h : extract_semesters text = .ok sems) (hs : s ∈ sems) :
    ∃ p, processBlock (pySplitNl text) p = .ok (some s) := by
  unfold extract_semesters at h
  rcases foldlM_accBlock_mem (pySplitNl text) _ [] sems h s hs with hc | hc
  · cases hc
  · exact hc

/-- A decimal digit is not whitespace. -/
theorem digit_not_space (c : Char) (h : c.isDigit = true) : pyIsSpace c = false := by
  by_contra hc
  simp only [Bool.not_eq_false] at hc
  unfold pyIsSpace at hc
  simp only [Bool.or_eq_true, decide_eq_true_eq] at hc
  rcases hc with ((((h1 | h1) | h1) | h1) | h1) | h1 <;>
    (subst h1; exact absurd h (by decide))

/-- Lemma: `dropWhile` is the identity when no element satisfies the predicate. -/
theorem dropWhile_eq_self (p : Char → Bool) (l : List Char)
    (h : ∀ c ∈ l, p c = false) : l.dropWhile p = l := by
  cases l with
  | nil => rfl
  | cons c t =>
    rw [List.dropWhile_cons, h c (List.mem_cons_self c t)]
    simp

/-- Stripping a string with no whitespace is the identity. -/
theorem pyStripList_eq_self (l : List Char) (h : ∀ c ∈ l, pyIsSpace c = false) :
    pyStripList l = l := by
  unfold pyStripList
  rw [dropWhile_eq_self _ _ h, dropWhile_eq_self]
  · exact List.reverse_reverse l
  · intro c hc
    exact h c (List.mem_reverse.mp hc)

/-- Python's `str.isdigit()` guard is sufficient for `int(...)` to succeed. -/
theorem pyInt_isOk (s : String) (h : pyIsDigitStr s = true) : exOk (pyInt s) = true := by
  unfold pyIsDigitStr at h
  rw [Bool.and_eq_true] at h
  obtain ⟨h1, h2⟩ := h
  have hall : ∀ c ∈ s.toList, c.isDigit = true := List.all_eq_true.mp h2
  have hstrip : pyStripList s.toList = s.toList :=
    pyStripList_eq_self _ (fun c hc => digit_not_space c (hall c hc))
  simp only [pyInt]
  rw [hstrip]
  rcases hl : s.toList with _ | ⟨c, t⟩
  · rw [hl] at h1
    simp at h1
  · have hc : c.isDigit = true := hall c (by rw [hl]; exact List.mem_cons_self c t)
    have hplus : ¬((c :: t).head? = some '+') := by
      simp only [List.head?_cons, Option.some.injEq]
      intro he
      rw [he] at hc
      exact absurd hc (by decide)
    have hminus : ¬((c :: t).head? = some '-') := by
      simp only [List.head?_cons, Option.some.injEq]
      intro he
      rw [he] at hc
      exact absurd hc (by decide)
    have hcond : (!(c :: t).isEmpty && (c :: t).all Char.isDigit) = true := by
      rw [Bool.and_eq_true]
      refine ⟨by simp, ?_⟩
      rw [← hl]
      exact h2
    rw [if_neg hplus, if_neg hminus, if_pos hcond]
    rfl

/-- Lemma: `exOk` propagates through `Except.bind`. -/
theorem exOk_bind {α β : Type} (e : Except String α) (f : α → Except String β)
    (he : exOk e = true) (hf : ∀ a, exOk (f a) = true) : exOk (e.bind f) = true := by
  cases e with
  | error e2 => exact absurd he (by simp [exOk])
  | ok a => exact hf a

/-- The guarded year conversion of `processBlock` never raises. -/
theorem yearConv_isOk (y : String) :
    exOk (if pyIsDigitStr y then pyInt y else Except.ok 0) = true := by
  split
  · rename_i hy
    exact pyInt_isOk _ hy
  · rfl

/-- An `if` between two `Except.ok` values is ok. -/
theorem exOk_ite_ok {α : Type} (c : Prop) [Decidable c] (x y : α) :
    exOk (if c then Except.ok x else Except.ok y) = true := by
  split <;> rfl

/-- Lemma: `processBlock` never raises: the `int(year)` conversion is isdigit-guarded. -/
theorem processBlock_isOk (lines : List String) (p : Marker × Nat) :
    exOk (processBlock lines p) = true := by
  simp only [processBlock]
  apply exOk_bind
  · exact yearConv_isOk _
  · intro a
    exact exOk_ite_ok _ _ _

/-- Lemma: `accBlock` never raises. -/
theorem accBlock_isOk (lines : List String) (acc : List Semester) (p : Marker × Nat) :
    exOk (accBlock lines acc p) = true := by
  unfold accBlock
  cases hpb : processBlock lines p with
  | error e =>
    have hok := processBlock_isOk lines p
    rw [hpb] at hok
    exact absurd hok (by simp [exOk])
  | ok so => cases so <;> rfl

/-- A fold of `accBlock` never raises. -/
theorem foldlM_accBlock_isOk (lines : List String) :
    ∀ (ps : List (Marker × Nat)) (acc : List Semester),
      exOk (ps.foldlM (accBlock lines) acc) = true := by
  intro ps
  induction ps with
  | nil => intro acc; rfl
  | cons p ps ih =>
    intro acc
    simp only [List.foldlM_cons]
    cases hb : accBlock lines acc p with
    | error e =>
      have hok := accBlock_isOk lines acc p
      rw [hb] at hok
      exact absurd hok (by simp [exOk])
    | ok acc' =>
      exact ih acc'

/-! ## Claims -/

/-- C1: for every course code absent from the course catalog (the `all_courses`
dictionary has no entry for the upper-cased code) and every passed-course list,
`check_prerequisite_satisfaction` returns valid with the "not in database" reason,
regardless of what the student has or has not passed. -/
theorem C1_unknown_course_fail_open (course_code : String) (passed_courses : List String)
    (a : CourseAnalyzer) (h : a.all_courses.lookup (pyUpper course_code) = none) :
    check_prerequisite_satisfaction course_code passed_courses a =
      (true, "Course not found in database") := by
  unfold check_prerequisite_satisfaction CourseAnalyzer.get_course_info
  rw [h]

/-- Witness for C1 at a concrete absent course code. -/
theorem C1_witness :
    check_prerequisite_satisfaction "01206999" ["01206111"]
      { all_courses := [("01206211", { prerequisites := ["01206111"] })] } =
      (true, "Course not found in database") :=
  C1_unknown_course_fail_open "01206999" ["01206111"]
    { all_courses := [("01206211", { prerequisites := ["01206111"] })] } (by decide)

/-- C2: for a course present in the catalog, `check_prerequisite_satisfaction` is
invalid iff some declared prerequisite is missing from the passed-course list (in
particular it is valid on an empty prerequisite list), and an invalid result's
reason enumerates exactly the missing prerequisites (all of them, in order). -/
theorem C2_missing_prereqs_enumerated (course_code : String) (passed_courses : List String)
    (a : CourseAnalyzer) (info : CourseInfo)
    (h : a.get_course_info course_code = some info) :
    ((check_prerequisite_satisfaction course_code passed_courses a).1 = false ↔
      ∃ p ∈ info.prerequisites, p ∉ passed_courses) ∧
    (info.prerequisites = [] →
      check_prerequisite_satisfaction course_code passed_courses a =
        (true, "No prerequisites required")) ∧
    (∀ p : String,
      p ∈ info.prerequisites.filter (fun q => q ∉ passed_courses) ↔
        p ∈ info.prerequisites ∧ p ∉ passed_courses) ∧
    (info.prerequisites.filter (fun q => q ∉ passed_courses) ≠ [] →
      check_prerequisite_satisfaction course_code passed_courses a =
        (false, "Missing prerequisites: " ++
          String.intercalate ", "
            (info.prerequisites.filter (fun q => q ∉ passed_courses)))) := by
  have hmem : ∀ p : String,
      p ∈ info.prerequisites.filter (fun q => q ∉ passed_courses) ↔
        p ∈ info.prerequisites ∧ p ∉ passed_courses := by
    intro p
    rw [List.mem_filter]
    simp
  have hex : info.prerequisites.filter (fun q => q ∉ passed_courses) ≠ [] ↔
      ∃ p ∈ info.prerequisites, p ∉ passed_courses := by
    constructor
    · intro hne
      rcases List.exists_mem_of_ne_nil _ hne with ⟨p, hp⟩
      rcases (hmem p).mp hp with ⟨h1, h2⟩
      exact ⟨p, h1, h2⟩
    · rintro ⟨p, h1, h2⟩ hnil
      have hpm := (hmem p).mpr ⟨h1, h2⟩
      rw [hnil] at hpm
      exact absurd hpm (List.not_mem_nil p)
  unfold check_prerequisite_satisfaction
  rw [h]
  dsimp only
  by_cases hP : info.prerequisites = []
  · rw [if_pos hP]
    refine ⟨?_, fun _ => rfl, hmem, ?_⟩
    · simp [hP]
    · intro hM
      rw [hP] at hM
      simp at hM
  · rw [if_neg hP]
    by_cases hM : info.prerequisites.filter (fun q => q ∉ passed_courses) ≠ []
    · rw [if_pos hM]
      refine ⟨?_, fun hP2 => absurd hP2 hP, hmem, fun _ => rfl⟩
      constructor
      · intro _
        exact hex.mp hM
      · intro _
        rfl
    · rw [if_neg hM]
      push_neg at hM
      refine ⟨?_, fun hP2 => absurd hP2 hP, hmem, fun hne => absurd hM hne⟩
      constructor
      · intro hc
        simp at hc
      · intro hEx
        exact absurd hM (hex.mpr hEx)

/-- Witness for C2 at a concrete catalog: two prerequisites, both missing, both
enumerated in the reason. -/
theorem C2_witness :
    check_prerequisite_satisfaction "01206311" ["01206100"]
      { all_courses := [("01206311", { prerequisites := ["01206111", "01206221"] })] } =
      (false, "Missing prerequisites: 01206111, 01206221") := by
  have h := (C2_missing_prereqs_enumerated "01206311" ["01206100"]
    { all_courses := [("01206311", { prerequisites := ["01206111", "01206221"] })] }
    { prerequisites := ["01206111", "01206221"] } (by decide)).2.2.2
  rw [h (by decide)]
  decide

/-- C3: `validate_credit_load` returns `is_ok = false` exactly when the credit total
exceeds the ceiling for the semester type — 9 when the type lowercases to "summer",
22 otherwise — and every credit-limit result the `streamlit_app.py` pipeline records
for an exceeded ceiling has `is_valid = true` (a warning, never a rejection). -/
theorem C3_credit_limit_is_warning :
    (∀ (semester_credits : Int) (semester_type : String),
      (validate_credit_load semester_credits semester_type).1 = false ↔
        semester_credits > (if pyLower semester_type = "summer" then (9 : Int) else 22)) ∧
    (∀ (i : Nat) (sem : Semester) (r : VResult),
      r ∈ creditLimitCheck i sem → r.is_valid = true) := by
  constructor
  · intro semester_credits semester_type
    unfold validate_credit_load
    by_cases h : pyLower semester_type = "summer" <;> simp [h] <;> split <;> simp_all
  · intro i sem r hr
    unfold creditLimitCheck at hr
    split at hr
    · simp at hr
      rw [hr]
    · simp at hr

/-- Witness for C3: a Summer semester with 12 credits (ceiling 9). -/
theorem C3_witness :
    VResult.is_valid
      { semester := "Summer Session 2022", semester_index := 0,
        course_code := "CREDIT_LIMIT", course_name := "Credit Limit Check",
        grade := "N/A", is_valid := true, reason := "Exceeds maximum 9 credits",
        type := "credit_limit" } = true ∧
    (validate_credit_load 12 "Summer").1 = false :=
  ⟨C3_credit_limit_is_warning.2 0
      { semester := "Summer Session 2022", semester_type := "Summer", year := "2022",
        year_int := 2022, courses := [], sem_gpa := none, cum_gpa := none,
        total_credits := 12, semester_order := 0 }
      { semester := "Summer Session 2022", semester_index := 0,
        course_code := "CREDIT_LIMIT", course_name := "Credit Limit Check",
        grade := "N/A", is_valid := true, reason := "Exceeds maximum 9 credits",
        type := "credit_limit" }
      (by decide),
    (C3_credit_limit_is_warning.1 12 "Summer").mpr (by decide)⟩

/-- C4: within each semester returned by `extract_semesters` the course codes are
pairwise distinct, and the per-match step drops any match whose (space-cleaned)
course code has already been recorded in this block, leaving the state unchanged. -/
theorem C4_course_codes_deduplicated :
    (∀ (text : String) (sems : List Semester) (s : Semester),
      extract_semesters text = .ok sems → s ∈ sems →
        (s.courses.map Course.code).Nodup) ∧
    (∀ (st : BlockState) (m : String × String × String × String),
      dropSpaces (pyStrip m.1) ∈ st.seen → processCourseMatch st m = st) := by
  constructor
  · intro text sems s h hs
    rcases extract_semesters_mem text sems s h hs with ⟨p, hp⟩
    exact (processBlock_ok_some _ p s hp).2.2
  · intro st m hseen
    unfold processCourseMatch
    have hb : courseBody st m = .ok st := by
      simp only [courseBody]
      by_cases h1 : ¬(pyIsDigitStr (dropSpaces (pyStrip m.1)) = true ∧
          (dropSpaces (pyStrip m.1)).length = 8)
      · rw [if_pos h1]
      · rw [if_neg h1, if_pos hseen]
    rw [hb]

/-- Witness for C4: a semester block whose raw text repeats the same course line
yields a single record, and repeating the match on a state that has seen the code
changes nothing. -/
theorem C4_witness :
    (List.map Course.code
      [({ code := "01206111", name := "Engineering Mechanics I", grade := "A",
          credits := 3 } : Course)]).Nodup ∧
    processCourseMatch
      { courses := [{ code := "01206111", name := "Engineering Mechanics I",
                      grade := "A", credits := 3 }],
        sem_gpa := none, cum_gpa := none, total_credits := 3, seen := ["01206111"] }
      ("01206111", "Engineering Mechanics I", "A", "3") =
      { courses := [{ code := "01206111", name := "Engineering Mechanics I",
                      grade := "A", credits := 3 }],
        sem_gpa := none, cum_gpa := none, total_credits := 3, seen := ["01206111"] } :=
  ⟨C4_course_codes_deduplicated.1
      ("First Semester 2021\n01206111 Engineering Mechanics I A 3\n" ++
       "01206111 Engineering Mechanics I A 3")
      [{ semester := "First Semester 2021", semester_type := "First", year := "2021",
         year_int := 2021,
         courses := [{ code := "01206111", name := "Engineering Mechanics I",
                       grade := "A", credits := 3 }],
         sem_gpa := none, cum_gpa := none, total_credits := 3, semester_order := 1 }]
      { semester := "First Semester 2021", semester_type := "First", year := "2021",
        year_int := 2021,
        courses := [{ code := "01206111", name := "Engineering Mechanics I",
                      grade := "A", credits := 3 }],
        sem_gpa := none, cum_gpa := none, total_credits := 3, semester_order := 1 }
      rfl (List.mem_singleton.mpr rfl),
    C4_course_codes_deduplicated.2
      { courses := [{ code := "01206111", name := "Engineering Mechanics I",
                      grade := "A", credits := 3 }],
        sem_gpa := none, cum_gpa := none, total_credits := 3, seen := ["01206111"] }
      ("01206111", "Engineering Mechanics I", "A", "3") (by decide)⟩

/-- C5: `extract_semesters` finishes without an uncaught exception on every input:
the one conversion not wrapped in a `try` (`int(year)`) is guarded by
`str.isdigit()`, and every other fallible step skips the offending line. -/
theorem C5_extract_never_raises (text : String) :
    exOk (extract_semesters text) = true := by
  unfold extract_semesters
  exact foldlM_accBlock_isOk (pySplitNl text) _ []

/-- C6: every semester returned by `extract_semesters` is well formed: it has at
least one course, and each course record has an 8-digit code, a grade from the
fixed vocabulary, and credits strictly between 0 and 6 inclusive. -/
theorem C6_output_well_formed :
    ∀ (text : String) (sems : List Semester) (s : Semester),
      extract_semesters text = .ok sems → s ∈ sems →
        s.courses ≠ [] ∧ ∀ c ∈ s.courses, goodCourse c := by
  intro text sems s h hs
  rcases extract_semesters_mem text sems s h hs with ⟨p, hp⟩
  have h2 := processBlock_ok_some _ p s hp
  exact ⟨h2.1, h2.2.1⟩

/-- Witness for C6 on a concrete one-course block. -/
theorem C6_witness :
    ([({ code := "01204111", name := "Computers and Programming", grade := "B+",
         credits := 3 } : Course)] ≠ []) ∧
    goodCourse { code := "01204111", name := "Computers and Programming",
                 grade := "B+", credits := 3 } :=
  ⟨(C6_output_well_formed "Second Semester 2022\n01204111 Computers and Programming B+ 3"
      [{ semester := "Second Semester 2022", semester_type := "Second", year := "2022",
         year_int := 2022,
         courses := [{ code := "01204111", name := "Computers and Programming",
                       grade := "B+", credits := 3 }],
         sem_gpa := none, cum_gpa := none, total_credits := 3, semester_order := 2 }]
      { semester := "Second Semester 2022", semester_type := "Second", year := "2022",
        year_int := 2022,
        courses := [{ code := "01204111", name := "Computers and Programming",
                      grade := "B+", credits := 3 }],
        sem_gpa := none, cum_gpa := none, total_credits := 3, semester_order := 2 }
      rfl (List.mem_singleton.mpr rfl)).1,
   (C6_output_well_formed "Second Semester 2022\n01204111 Computers and Programming B+ 3"
      [{ semester := "Second Semester 2022", semester_type := "Second", year := "2022",
         year_int := 2022,
         courses := [{ code := "01204111", name := "Computers and Programming",
                       grade := "B+", credits := 3 }],
         sem_gpa := none, cum_gpa := none, total_credits := 3, semester_order := 2 }]
      { semester := "Second Semester 2022", semester_type := "Second", year := "2022",
        year_int := 2022,
        courses := [{ code := "01204111", name := "Computers and Programming",
                      grade := "B+", credits := 3 }],
        sem_gpa := none, cum_gpa := none, total_credits := 3, semester_order := 2 }
      rfl (List.mem_singleton.mpr rfl)).2
     { code := "01204111", name := "Computers and Programming", grade := "B+",
       credits := 3 }
     (List.mem_singleton.mpr rfl)⟩

/-- The exact rational value `pyFloat` computes for the text `"3.50"`
(`3 + 50 / 10^2`, i.e. `3.5`). -/
def c7gpa : Rat := ((3 : Nat) : Rat) + ((50 : Nat) : Rat) / ((10 : Rat) ^ (2 : Nat))

/-- C7: on the concrete three-line input of spec example scenario 1,
`extract_semesters` returns exactly one semester: First/2021, a single course
`01206111 / Engineering Mechanics I / A / 3`, both GPAs `3.50`, total credits 3. -/
theorem C7_example_scenario_one :
    extract_semesters
      ("First Semester 2021\n" ++
       "01206111 Engineering Mechanics I A 3\n" ++
       "sem. G.P.A. = 3.50 cum. G.P.A. = 3.50") =
    .ok [{ semester := "First Semester 2021", semester_type := "First", year := "2021",
           year_int := 2021,
           courses := [{ code := "01206111", name := "Engineering Mechanics I",
                         grade := "A", credits := 3 }],
           sem_gpa := some c7gpa, cum_gpa := some c7gpa,
           total_credits := 3, semester_order := 1 }] ∧
    c7gpa = 7 / 2 := by
  constructor
  · rfl
  · norm_num [c7gpa]

/-- C8: `process_pdf` on pre-extracted empty text returns the empty student-info
dictionary and an empty semester list, without raising. -/
theorem C8_empty_input_not_an_error :
    process_pdf "" = .ok (none, [], "") := rfl

/-- C9: a line whose stripped, lowercased content contains "http" or ".php" is
skipped wholesale by `extract_semesters`'s per-line step: the block state (courses
and GPA values alike) is left unchanged, whatever else the line contains. -/
theorem C9_http_php_lines_skipped (st : BlockState) (rawLine : String)
    (h : strContains (pyLower (pyStrip rawLine)) "http" = true ∨
         strContains (pyLower (pyStrip rawLine)) ".php" = true) :
    processLine st rawLine = st := by
  unfold processLine
  rcases h with h | h <;> simp [h]

/-- Witness for C9: a line containing both a validly formatted course entry and an
"http" URL contributes nothing. -/
theorem C9_witness :
    processLine initBlock "01206111 Engineering Mechanics I A 3 http://x.y" = initBlock :=
  C9_http_php_lines_skipped initBlock "01206111 Engineering Mechanics I A 3 http://x.y"
    (Or.inl (by decide))

/-- C10: whenever the "Student No" pattern matches, the extracted student id is the
first 10 characters of the matched group's digit sequence; fewer than 10 (but at
least one) digits give exactly those digits rather than "Unknown"; and the id is
"Unknown" only when the pattern does not match at all or matches zero digits. -/
theorem C10_student_id_digits (text : String) :
    (studentNoSearch text = none → (extract_student_info text).id = "Unknown") ∧
    (∀ caps, studentNoSearch text = some caps →
      ((10 ≤ (idDigits caps).length →
          (extract_student_info text).id = ((idDigits caps).take 10).asString) ∧
       (0 < (idDigits caps).length → (idDigits caps).length < 10 →
          (extract_student_info text).id = (idDigits caps).asString) ∧
       ((idDigits caps).length = 0 → (extract_student_info text).id = "Unknown"))) ∧
    ((extract_student_info text).id = "Unknown" →
      studentNoSearch text = none ∨
        ∃ caps, studentNoSearch text = some caps ∧ idDigits caps = []) := by
  rcases hs : studentNoSearch text with _ | caps
  · have hid : (extract_student_info text).id = "Unknown" := by
      unfold extract_student_info
      rw [hs]
    refine ⟨fun _ => hid, ?_, fun _ => Or.inl rfl⟩
    intro caps hc
    cases hc
  · have hid : (extract_student_info text).id =
        (if (idDigits caps).length ≥ 10 then ((idDigits caps).take 10).asString
         else if (idDigits caps).length > 0 then (idDigits caps).asString
         else "Unknown") := by
      unfold extract_student_info
      rw [hs]
    refine ⟨?_, ?_, ?_⟩
    · intro hnone
      cases hnone
    · intro caps2 hc
      injection hc with hcc
      subst hcc
      refine ⟨?_, ?_, ?_⟩
      · intro hlen
        rw [hid, if_pos hlen]
      · intro hpos hlt
        rw [hid, if_neg (by omega), if_pos hpos]
      · intro hzero
        rw [hid, if_neg (by omega), if_neg (by omega)]
    · intro hUnk
      by_cases hz : idDigits caps = []
      · exact Or.inr ⟨caps, rfl, hz⟩
      · exfalso
        have hlenpos : 0 < (idDigits caps).length := List.length_pos.mpr hz
        by_cases hge : 10 ≤ (idDigits caps).length
        · rw [hid, if_pos hge] at hUnk
          have htake := List.asString_eq.mp hUnk
          have hlen7 := congrArg List.length htake
          rw [List.length_take] at hlen7
          simp at hlen7
          omega
        · rw [hid, if_neg hge, if_pos hlenpos] at hUnk
          have hdata := List.asString_eq.mp hUnk
          have hU : 'U' ∈ idDigits caps := by
            rw [hdata]
            simp
          have hUd : ('U').isDigit = true := by
            unfold idDigits at hU
            exact (List.mem_filter.mp hU).2
          simp at hUd

/-- Witness for C10 at a concrete text whose "Student No" match carries more than
ten digits interleaved with spaces. -/
theorem C10_witness :
    (CRV.extract_student_info "Student No 12 3456789 01 x").id = "1234567890" := by
  have h := (C10_student_id_digits "Student No 12 3456789 01 x").2.1
    [(1, "12 3456789 01 ")] (by rfl)
  rw [h.1 (by decide)]
  decide

end CRV
